import Mathlib

/-!
Shallow embedding of the ssi-backend control plane (Django application) for
checking its natural-language specification. Definitions are translated from
`src/core/models.py`, `src/core/views.py`, `src/core/consumers/...` and
`src/core/receivers.py`; each definition's doc comment names its source.
-/

/-- Agent.RegistrationStatus choices (src/core/models.py lines 18-21). -/
inductive AgentRegStatus where
  | pending
  | registered
  | unregistered
deriving DecidableEq, Repr, BEq

/-- AgentRegistration status choices (src/core/models.py lines 119-123). -/
inductive RegistrationState where
  | pending
  | completed
  | expired
deriving DecidableEq, Repr, BEq

/-- Service.Status choices (src/core/models.py lines 81-87 and
core/consumers/events/typing.py ServiceStatus). -/
inductive ServiceStatus where
  | ok
  | warning
  | error
  | update
  | failure
  | unknown
deriving DecidableEq, Repr, BEq

/-- The Agent model row (src/core/models.py lines 17-45). Timestamps are
naturals; `last_seen = none` mirrors NULL. The `grace_period` field is read by
`AgentConsumer.disconnect` and listed by `AgentSerializer` but its column
declaration is absent from src/core/models.py. Modelled from the spec:
`GracePeriod` is a non-negative duration stored on the Agent. -/
structure Agent where
  pk : Nat
  key : String
  name : String
  owner : Nat
  ip_address : Option String
  registration_status : AgentRegStatus
  is_online : Bool
  last_seen : Option Nat
  grace_period : Nat
deriving DecidableEq, Repr, BEq

/-- The Service model row (src/core/models.py lines 76-112), minus the
implicit auto pk; a row is keyed by (agent, agent_service_id). -/
structure Service where
  agent_service_id : String
  name : String
  description : String
  version : String
  schedule : String
  last_status : ServiceStatus
  last_message : String
  last_seen : Option Nat
deriving DecidableEq, Repr, BEq

/-- The AgentRegistration model row (src/core/models.py lines 118-139).
`agent_credentials` holds the agent key string once completed. -/
structure Registration where
  id : Nat
  code : String
  status : RegistrationState
  expires_at : Nat
  failed_attempts : Nat
  agent_credentials : Option String
deriving DecidableEq, Repr, BEq

/-- Agent.mark_connected (src/core/models.py lines 53-62): sets
is_online := true and last_seen := None. -/
def mark_connected (a : Agent) : Agent :=
  { a with is_online := true, last_seen := none }

/-- Agent.mark_disconnected (src/core/models.py lines 64-73): sets
is_online := false and last_seen := timezone.now(). -/
def mark_disconnected (a : Agent) (now : Nat) : Agent :=
  { a with is_online := false, last_seen := some now }

/-- The single-field write in AgentConsumer.disconnect (agent_consumer.py
lines 126-130): if last_seen is None, set last_seen := now() with
update_fields=["last_seen"]; is_online is not touched. -/
def disconnectLastSeenWrite (a : Agent) (now : Nat) : Agent :=
  if a.last_seen = none then { a with last_seen := some now } else a

/-- The body of AgentConsumer._grace_period_disconnect after the sleep
(agent_consumer.py lines 149-152): reload, and call mark_disconnected
only when last_seen is not None. -/
def graceCheck (a : Agent) (now : Nat) : Agent :=
  if a.last_seen ≠ none then mark_disconnected a now else a

/-- The spec's Agent invariant: IsOnline == (LastSeen == null). -/
def agentInvariant (a : Agent) : Prop :=
  a.is_online = a.last_seen.isNone

instance (a : Agent) : Decidable (agentInvariant a) := by
  unfold agentInvariant; infer_instance

/-- A registered agent with a live session (is_online, last_seen = NULL),
as produced by mark_connected. -/
def onlineAgentA : Agent :=
  { pk := 1
    key := "0f0e0d0c-0b0a-0908-0706-050403020100"
    name := "alpha"
    owner := 7
    ip_address := some "10.0.0.2"
    registration_status := .registered
    is_online := true
    last_seen := none
    grace_period := 5 }

/-- A registered agent already marked disconnected at time 3. -/
def offlineAgentA : Agent := mark_disconnected onlineAgentA 3

/-- C1 counterexample: the disconnect handler's entry into Draining (the
single-field last_seen write) performed on a live agent commits a state with
is_online = true and last_seen ≠ null, violating IsOnline == (LastSeen ==
null); the claim is false for that listed operation. -/
theorem c1_draining_write_breaks_invariant :
    agentInvariant onlineAgentA ∧
      ¬ agentInvariant (disconnectLastSeenWrite onlineAgentA 5) := by
  decide

/-- C1 (amended): IsOnline == (LastSeen == null) holds after MarkConnected and
MarkDisconnected unconditionally, and is preserved by the grace-period check;
the disconnect handler's Draining-entry write preserves it only when the agent
was already disconnected (last_seen ≠ null) — on a live agent it deliberately
records last_seen while leaving is_online true for the grace window. -/
theorem c1_invariant_after_transitions (a : Agent) (t : Nat) :
    agentInvariant (mark_connected a) ∧
      agentInvariant (mark_disconnected a t) ∧
      (agentInvariant a → agentInvariant (graceCheck a t)) ∧
      (agentInvariant a → a.last_seen ≠ none →
        agentInvariant (disconnectLastSeenWrite a t)) := by
  refine ⟨rfl, rfl, ?_, ?_⟩
  · intro h
    unfold graceCheck
    by_cases hl : a.last_seen = none
    · have hb : a.is_online = true := by
        unfold agentInvariant at h
        rw [h, hl]
        rfl
      simp [hl, agentInvariant, hb, h]
    · simp [hl, mark_disconnected, agentInvariant]
  · intro h hl
    unfold disconnectLastSeenWrite
    simp [hl]
    exact h

/-- C1 witness: the amended invariant statement instantiated at a concrete
disconnected agent and time 3, discharging both hypotheses. -/
theorem c1_invariant_witness :
    agentInvariant (mark_connected offlineAgentA) ∧
      agentInvariant (mark_disconnected offlineAgentA 3) ∧
      agentInvariant (graceCheck offlineAgentA 3) ∧
      agentInvariant (disconnectLastSeenWrite offlineAgentA 3) := by
  have h := c1_invariant_after_transitions offlineAgentA 3
  exact ⟨h.1, h.2.1, h.2.2.1 (by decide), h.2.2.2 (by decide) (by decide)⟩

/-- HTTP statuses surfaced by the registration REST views. serverError500
stands for an unhandled Python exception escaping the view. -/
inductive HttpStatus where
  | ok200
  | created201
  | badRequest400
  | notFound404
  | gone410
  | serverError500
deriving DecidableEq, Repr, BEq

/-- Python dict key lookup returning None when the key is missing. -/
def dictGet (d : List (String × String)) (k : String) : Option String :=
  (d.find? (fun kv => kv.1 == k)).map (·.2)

/-- validated_data of CompleteAgentRegistrationSerializer (serializers.py
lines 88-94): the serializer declares exactly one field, `code` with
min_length = max_length = 6; any other submitted key (such as `name`) is
dropped during validation. -/
def completeValidatedData (body : List (String × String)) :
    Option (List (String × String)) :=
  match dictGet body "code" with
  | some c => if c.length == 6 then some [("code", c)] else none
  | none => none

/-- Agent.grace_period column default. Modelled from the spec: the default is
a configurable non-negative duration; fixed to 0 here. -/
def gracePeriodDefault : Nat := 0

/-- Combined state returned by CompleteAgentRegistrationView.post: the
response status plus the registration and agent tables after the request. -/
structure CompleteResult where
  resp : HttpStatus
  regs : List Registration
  agents : List Agent
deriving DecidableEq, Repr, BEq

/-- Saving a fetched Registration row back: replace the row with that id. -/
def updateRegistration (regs : List Registration) (r : Registration) :
    List Registration :=
  regs.map (fun x => if x.id == r.id then r else x)

/-- Lines 167-202 of views.py (the body of CompleteAgentRegistrationView.post
after both validated fields are in hand): look up a pending, unexpired
registration by the submitted code; on miss return 400; if failed_attempts
is already ≥ 5, expire it and return 400; otherwise create the Agent with
registration_status := REGISTERED, mark the registration completed and store
the agent key in agent_credentials. -/
def completeRegistrationBody (regs : List Registration) (agents : List Agent)
    (user : Nat) (now : Nat) (freshKey : String) (code name : String) :
    CompleteResult :=
  match regs.find? (fun r =>
      r.code == code && r.status == .pending && decide (now < r.expires_at)) with
  | none => ⟨.badRequest400, regs, agents⟩
  | some r =>
    if r.failed_attempts ≥ 5 then
      ⟨.badRequest400, updateRegistration regs { r with status := .expired },
        agents⟩
    else
      let agent : Agent :=
        { pk := agents.length + 1
          key := freshKey
          name := name
          owner := user
          ip_address := none
          registration_status := .registered
          is_online := false
          last_seen := none
          grace_period := gracePeriodDefault }
      ⟨.ok200,
        updateRegistration regs
          { r with status := .completed, agent_credentials := some freshKey },
        agents ++ [agent]⟩

/-- CompleteAgentRegistrationView.post (views.py lines 151-202). After the
serializer validates, the view reads validated_data["code"] and then
validated_data["name"]; the serializer defines no `name` field, so that read
raises KeyError and the request ends in an unhandled 500 before the
registration lookup ever runs. The post-lookup code (lines 167-202) is
embedded separately as completeRegistrationBody. -/
def completeRegistration (regs : List Registration) (agents : List Agent)
    (user : Nat) (now : Nat) (freshKey : String)
    (body : List (String × String)) : CompleteResult :=
  match completeValidatedData body with
  | none => ⟨.badRequest400, regs, agents⟩
  | some vd =>
    match dictGet vd "code", dictGet vd "name" with
    | some code, some name =>
        completeRegistrationBody regs agents user now freshKey code name
    | _, _ => ⟨.serverError500, regs, agents⟩

/-- A sequence of POST /register/complete attempts threaded through the
state, returning the list of responses and the final tables. -/
def completeAttempts (bodies : List (List (String × String)))
    (regs : List Registration) (agents : List Agent) (user : Nat) (now : Nat)
    (freshKey : String) : List HttpStatus × List Registration × List Agent :=
  match bodies with
  | [] => ([], regs, agents)
  | b :: rest =>
    let r := completeRegistration regs agents user now freshKey b
    let rec' := completeAttempts rest r.regs r.agents user now freshKey
    (r.resp :: rec'.1, rec'.2)

/-- A pending registration with code "123456" expiring at time 100. -/
def pendingReg1 : Registration :=
  { id := 1
    code := "123456"
    status := .pending
    expires_at := 100
    failed_attempts := 0
    agent_credentials := none }

/-- C2: five POST /register/complete requests with a wrong code against the
state holding pending registration pendingReg1 each end in 500 (KeyError on
the absent validated "name") and leave the registration untouched:
failed_attempts stays 0 and the status stays pending, never reaching the
claimed failed_attempts = 5 / Expired state. The view's own
failed_attempts ≥ 5 branch is unreachable because the lookup is keyed by the
submitted code, so a mismatching request never resolves to a registration. -/
theorem c2_five_wrong_codes_leave_counter_at_zero :
    completeAttempts (List.replicate 5 [("code", "000000")]) [pendingReg1] []
        7 1 "K"
      = (List.replicate 5 .serverError500, [pendingReg1], []) ∧
    pendingReg1.failed_attempts = 0 ∧ pendingReg1.status = .pending := by
  decide

/-- C3: a POST /register/complete with the valid unexpired code "123456" ends
in an unhandled 500 (KeyError reading validated_data["name"]) with no Agent
created and the registration still pending; and even the unreachable
post-lookup body would create the Agent with registration_status REGISTERED
(not Pending as claimed), with the submitted name, while marking the
registration completed with the key stored. -/
theorem c3_complete_crashes_and_dead_path_creates_registered :
    completeRegistration [pendingReg1] [] 7 1 "K"
        [("code", "123456"), ("name", "host-a")]
      = ⟨.serverError500, [pendingReg1], []⟩ ∧
    completeRegistrationBody [pendingReg1] [] 7 1 "K" "123456" "host-a"
      = ⟨.ok200,
          [{ pendingReg1 with
              status := .completed, agent_credentials := some "K" }],
          [{ pk := 1
             key := "K"
             name := "host-a"
             owner := 7
             ip_address := none
             registration_status := .registered
             is_online := false
             last_seen := none
             grace_period := gracePeriodDefault }]⟩ := by
  decide

/-- Response body variants of AgentRegistrationStatusView.get. -/
inductive StatusBody where
  | completedBody (credentials : Option String)
  | expiredBody
  | pendingBody
  | emptyBody
deriving DecidableEq, Repr, BEq

/-- registration.delete(): remove the row with the given primary key. -/
def deleteRegistration (regs : List Registration) (rid : Nat) :
    List Registration :=
  regs.filter (fun r => r.id != rid)

/-- AgentRegistrationStatusView.get (views.py lines 212-229): 404 when the id
is unknown; when status is completed, return the stored credentials and delete
the row; else when status is expired or expires_at is past, delete the row and
return 410; otherwise report pending. -/
def registrationStatusView (regs : List Registration) (rid : Nat) (now : Nat) :
    HttpStatus × StatusBody × List Registration :=
  match regs.find? (fun r => r.id == rid) with
  | none => (.notFound404, .emptyBody, regs)
  | some r =>
    if r.status = .completed then
      (.ok200, .completedBody r.agent_credentials, deleteRegistration regs rid)
    else if r.status = .expired ∨ r.expires_at < now then
      (.gone410, .expiredBody, deleteRegistration regs rid)
    else
      (.ok200, .pendingBody, regs)

/-- After deleting a registration id, a lookup of that id finds nothing. -/
theorem find?_deleteRegistration_none (regs : List Registration) (rid : Nat) :
    (deleteRegistration regs rid).find? (fun r => r.id == rid) = none := by
  rw [List.find?_eq_none]
  intro x hx
  have hmem := List.mem_filter.mp hx
  simpa using hmem.2

/-- C8: for every registration table and id, the status endpoint returns 404
on an unknown id; returns the stored credentials and deletes the row when the
found registration is completed, so an immediately following call returns 404;
deletes the row and returns 410 when it is expired or past expires_at; and
otherwise reports pending without touching the table. -/
theorem c8_registration_status_polling (regs : List Registration)
    (rid now now2 : Nat) :
    (regs.find? (fun r => r.id == rid) = none →
      registrationStatusView regs rid now = (.notFound404, .emptyBody, regs)) ∧
    (∀ r, regs.find? (fun r => r.id == rid) = some r →
      (r.status = .completed →
        registrationStatusView regs rid now
          = (.ok200, .completedBody r.agent_credentials,
              deleteRegistration regs rid) ∧
        (registrationStatusView (deleteRegistration regs rid) rid now2).1
          = .notFound404) ∧
      (r.status ≠ .completed → (r.status = .expired ∨ r.expires_at < now) →
        registrationStatusView regs rid now
          = (.gone410, .expiredBody, deleteRegistration regs rid)) ∧
      (r.status ≠ .completed → r.status ≠ .expired → ¬ r.expires_at < now →
        registrationStatusView regs rid now = (.ok200, .pendingBody, regs))) := by
  constructor
  · intro hnone
    simp [registrationStatusView, hnone]
  · intro r hfind
    refine ⟨?_, ?_, ?_⟩
    · intro hc
      constructor
      · simp [registrationStatusView, hfind, hc]
      · simp [registrationStatusView, find?_deleteRegistration_none]
    · intro hnc hexp
      simp [registrationStatusView, hfind, hnc, hexp]
    · intro hnc hne hnlt
      simp [registrationStatusView, hfind, hnc, hne, hnlt]

/-- A completed registration carrying stored credentials. -/
def completedReg2 : Registration :=
  { id := 2
    code := "654321"
    status := .completed
    expires_at := 50
    failed_attempts := 0
    agent_credentials := some "K" }

/-- An expired registration. -/
def expiredReg3 : Registration :=
  { id := 3
    code := "111111"
    status := .expired
    expires_at := 50
    failed_attempts := 0
    agent_credentials := none }

/-- C8 witness: the polling theorem applied at concrete tables covering the
unknown-id, completed, expired and pending branches, with every hypothesis
discharged on concrete data. -/
theorem c8_registration_status_witness :
    registrationStatusView [] 9 60 = (.notFound404, .emptyBody, []) ∧
    (registrationStatusView [completedReg2] 2 60
        = (.ok200, .completedBody (some "K"), []) ∧
      (registrationStatusView (deleteRegistration [completedReg2] 2) 2 61).1
        = .notFound404) ∧
    registrationStatusView [expiredReg3] 3 60 = (.gone410, .expiredBody, []) ∧
    registrationStatusView [pendingReg1] 1 60
      = (.ok200, .pendingBody, [pendingReg1]) := by
  have h1 := (c8_registration_status_polling [] 9 60 61).1 (by decide)
  have h2 := ((c8_registration_status_polling [completedReg2] 2 60 61).2
    completedReg2 (by decide)).1 (by decide)
  have h3 := (((c8_registration_status_polling [expiredReg3] 3 60 61).2
    expiredReg3 (by decide)).2.1) (by decide) (Or.inl (by decide))
  have h4 := (((c8_registration_status_polling [pendingReg1] 1 60 61).2
    pendingReg1 (by decide)).2.2) (by decide) (by decide) (by decide)
  refine ⟨h1, ⟨?_, ?_⟩, ?_, h4⟩
  · simpa using h2.1
  · exact h2.2
  · simpa using h3

/-- Channel-layer control messages sent to agent groups: the
"supersede.connection" message of AgentConsumer.connect and the
"force.disconnect" message of AgentUnregisterView.post. -/
inductive ControlMessage where
  | supersede (new_channel_name : String)
  | forceDisconnect
deriving DecidableEq, Repr

/-- The agent-control group a live session joins on connect
(agent_consumer.py line 54): "agent_" + str(agent.pk). -/
def agentGroupJoinedBySession (a : Agent) : String :=
  "agent_" ++ toString a.pk

/-- The agent-control group AgentUnregisterView publishes to
(views.py line 113): "agent_" + str(agent.key). -/
def agentGroupPublishedOnUnregister (a : Agent) : String :=
  "agent_" ++ a.key

/-- The channel-layer message types AgentConsumer can dispatch: the class
defines the handler supersede_connection (for type "supersede.connection")
and no handler at all for "force.disconnect". -/
def agentConsumerHasHandler : ControlMessage → Bool
  | .supersede _ => true
  | .forceDisconnect => false

/-- Outcome of AgentUnregisterView.post: the saved agent row, the remaining
service rows, and the (group, message) publishes it performed. -/
structure UnregisterResult where
  agent : Agent
  services : List Service
  published : List (String × ControlMessage)
deriving DecidableEq, Repr

/-- AgentUnregisterView.post (views.py lines 100-127): delete all of the
authenticated agent's services, save registration_status := unregistered, and
group_send a {type: "force.disconnect"} message to "agent_" + key. -/
def agentUnregister (a : Agent) (_svcs : List Service) : UnregisterResult :=
  { agent := { a with registration_status := .unregistered }
    services := []
    published := [(agentGroupPublishedOnUnregister a, .forceDisconnect)] }

/-- A service row supervised by onlineAgentA. -/
def serviceNginx : Service :=
  { agent_service_id := "nginx"
    name := "nginx"
    description := "web server"
    version := "1.24"
    schedule := ""
    last_status := .ok
    last_message := ""
    last_seen := some 2 }

/-- C4: unregistering the concrete agent onlineAgentA deletes its services,
sets registration_status unregistered and publishes force_disconnect to
"agent_" + key — but that group differs from "agent_" + pk, the group its
live session actually joined, and AgentConsumer has no force_disconnect
handler, so a live session never receives the message. -/
theorem c4_force_disconnect_never_reaches_session :
    agentUnregister onlineAgentA [serviceNginx]
      = { agent := { onlineAgentA with registration_status := .unregistered }
          services := []
          published :=
            [("agent_0f0e0d0c-0b0a-0908-0706-050403020100",
              .forceDisconnect)] } ∧
    agentGroupJoinedBySession onlineAgentA = "agent_1" ∧
    agentGroupPublishedOnUnregister onlineAgentA
      ≠ agentGroupJoinedBySession onlineAgentA ∧
    agentConsumerHasHandler .forceDisconnect = false := by
  refine ⟨rfl, rfl, ?_, rfl⟩
  decide

/-- The liveness-relevant fields of the client.status_update broadcast that
post_save_agent (receivers.py lines 64-82) emits from the saved row via
map_agent_to_client_model. -/
structure StatusBroadcast where
  agent_id : Nat
  is_online : Bool
  last_seen : Option Nat
deriving DecidableEq, Repr

/-- post_save_agent (receivers.py lines 64-82): every committed Agent save
broadcasts one client.status_update describing the row as saved. -/
def postSaveBroadcast (a : Agent) : StatusBroadcast :=
  ⟨a.pk, a.is_online, a.last_seen⟩

/-- Agent.mark_connected together with the post-commit broadcast its save
triggers. -/
def markConnectedRun (a : Agent) : Agent × List StatusBroadcast :=
  let a1 := mark_connected a
  (a1, [postSaveBroadcast a1])

/-- Agent.mark_disconnected together with the post-commit broadcast its save
triggers. -/
def markDisconnectedRun (a : Agent) (now : Nat) :
    Agent × List StatusBroadcast :=
  let a1 := mark_disconnected a now
  (a1, [postSaveBroadcast a1])

/-- update_agent_ip (events/db.py lines 34-39) with its broadcast: a save
happens only when a non-empty new ip differs from the stored one. -/
def updateAgentIpRun (a : Agent) (newIp : Option String) :
    Agent × List StatusBroadcast :=
  match newIp with
  | some ip =>
    if a.ip_address ≠ some ip then
      let a1 := { a with ip_address := some ip }
      (a1, [postSaveBroadcast a1])
    else (a, [])
  | none => (a, [])

/-- The non-superseded branch of AgentConsumer.disconnect (agent_consumer.py
lines 121-138) with broadcasts: the last_seen write saves (and so broadcasts)
only when last_seen was null; with grace_period = 0 mark_disconnected runs at
once, otherwise the grace task is scheduled (the Bool component). -/
def disconnectRun (a : Agent) (now : Nat) :
    Agent × List StatusBroadcast × Bool :=
  let a1 := disconnectLastSeenWrite a now
  let es1 := if a.last_seen = none then [postSaveBroadcast a1] else []
  if a1.grace_period = 0 then
    let d := markDisconnectedRun a1 now
    (d.1, es1 ++ d.2, false)
  else (a1, es1, true)

/-- AgentConsumer._grace_period_disconnect (agent_consumer.py lines 142-154)
with broadcasts: after the sleep, mark_disconnected runs only when the
reloaded agent still has last_seen ≠ null. -/
def graceCheckRun (a : Agent) (now : Nat) : Agent × List StatusBroadcast :=
  if a.last_seen ≠ none then markDisconnectedRun a now else (a, [])

/-- Scenario S3 as the code runs it: a non-superseded disconnect at t0, then
a reconnect (the new session persists the IP and finishes the agent.ready
handshake through mark_connected), then the grace task fires at tg. Returns
the final agent and the concatenated client.status_update trace. -/
def flapRun (a : Agent) (t0 tg : Nat) (newIp : Option String) :
    Agent × List StatusBroadcast :=
  let d := disconnectRun a t0
  let i := updateAgentIpRun d.1 newIp
  let c := markConnectedRun i.1
  let g := graceCheckRun c.1 tg
  (g.1, d.2.1 ++ i.2 ++ c.2 ++ g.2)

/-- C5: starting from a live agent (last_seen null, online) with a nonzero
grace period, a disconnect schedules the grace task; after the reconnect sets
last_seen back to null, the grace task returns the agent unchanged and emits
nothing, and every client.status_update of the whole disconnect–reconnect run
describes the agent as online — zero offline events. -/
theorem c5_reconnect_within_grace_is_silent (a : Agent) (t0 tg : Nat)
    (newIp : Option String) (hlive : a.last_seen = none)
    (hon : a.is_online = true) (hg : a.grace_period ≠ 0) :
    (disconnectRun a t0).2.2 = true ∧
    graceCheckRun
        (markConnectedRun (updateAgentIpRun (disconnectRun a t0).1 newIp).1).1
        tg
      = ((markConnectedRun
            (updateAgentIpRun (disconnectRun a t0).1 newIp).1).1, []) ∧
    ∀ e ∈ (flapRun a t0 tg newIp).2, e.is_online = true := by
  have hd : disconnectRun a t0
      = ({ a with last_seen := some t0 },
          [⟨a.pk, a.is_online, some t0⟩], true) := by
    simp [disconnectRun, disconnectLastSeenWrite, markDisconnectedRun,
      mark_disconnected, postSaveBroadcast, hlive, hg]
  have hipon : ∀ (b : Agent) (ip : Option String),
      ∀ x ∈ (updateAgentIpRun b ip).2, x.is_online = b.is_online := by
    intro b ip
    rcases ip with _ | ip
    · simp [updateAgentIpRun]
    · by_cases hsame : b.ip_address = some ip
      · simp [updateAgentIpRun, hsame]
      · simp [updateAgentIpRun, hsame, postSaveBroadcast]
  have hgr : graceCheckRun
      (markConnectedRun
        (updateAgentIpRun (disconnectRun a t0).1 newIp).1).1 tg
      = ((markConnectedRun
          (updateAgentIpRun (disconnectRun a t0).1 newIp).1).1, []) := by
    simp [graceCheckRun, markConnectedRun, mark_connected]
  refine ⟨by rw [hd], hgr, ?_⟩
  intro e he
  have hmem : (flapRun a t0 tg newIp).2
      = ⟨a.pk, a.is_online, some t0⟩ ::
        ((updateAgentIpRun { a with last_seen := some t0 } newIp).2 ++
          [⟨(updateAgentIpRun { a with last_seen := some t0 } newIp).1.pk,
            true, none⟩]) := by
    simp only [flapRun]
    rw [hd]
    simp [markConnectedRun, mark_connected, graceCheckRun, postSaveBroadcast]
  rw [hmem] at he
  simp only [List.mem_cons, List.mem_append, List.mem_singleton] at he
  rcases he with he | he | he
  · rw [he]
    exact hon
  · have hx := hipon { a with last_seen := some t0 } newIp e he
    simpa [hon] using hx
  · rcases he with he | he
    · rw [he]
    · simp at he

/-- Per-connection state of AgentConsumer relevant to the supersede and
disconnect paths: the channel name, the superseded flag, group membership and
the close code sent, if any. -/
structure Session where
  channel_name : String
  superseded : Bool
  in_group : Bool
  close_code : Option Nat
deriving DecidableEq, Repr

/-- AgentConsumer.supersede_connection (agent_consumer.py lines 92-104): when
the supersede message names a channel other than our own, set superseded and
close with code 4000; otherwise do nothing. -/
def supersede_connection (s : Session) (new_channel_name : String) : Session :=
  if new_channel_name ≠ s.channel_name then
    { s with superseded := true, close_code := some 4000 }
  else s

/-- AgentConsumer.disconnect (agent_consumer.py lines 106-138): always leave
the agent group first; when superseded, return at once — no Agent writes, no
broadcasts, no grace task; otherwise run the draining logic (disconnectRun). -/
def sessionDisconnect (s : Session) (a : Agent) (now : Nat) :
    Session × Agent × List StatusBroadcast × Bool :=
  let s1 := { s with in_group := false }
  if s.superseded then (s1, a, [], false)
  else
    let d := disconnectRun a now
    (s1, d.1, d.2.1, d.2.2)

/-- C6: a session that received a supersede naming another channel marks
itself superseded and closes with code 4000, and its disconnect path then
leaves the group while changing no Agent field, emitting no broadcast and
scheduling no grace task. -/
theorem c6_superseded_disconnect_writes_nothing (s : Session) (a : Agent)
    (now : Nat) (c : String) (hne : c ≠ s.channel_name) :
    (supersede_connection s c).superseded = true ∧
    (supersede_connection s c).close_code = some 4000 ∧
    sessionDisconnect (supersede_connection s c) a now
      = ({ supersede_connection s c with in_group := false }, a, [], false) := by
  refine ⟨?_, ?_, ?_⟩ <;> simp [supersede_connection, hne, sessionDisconnect]

/-- C6 witness: the superseded-disconnect theorem at a concrete session and
agent, with the distinct-channel hypothesis discharged. -/
theorem c6_superseded_disconnect_witness :
    (supersede_connection ⟨"chan-a", false, true, none⟩ "chan-b").superseded
      = true ∧
    (supersede_connection ⟨"chan-a", false, true, none⟩ "chan-b").close_code
      = some 4000 ∧
    sessionDisconnect
        (supersede_connection ⟨"chan-a", false, true, none⟩ "chan-b")
        onlineAgentA 9
      = ({ supersede_connection ⟨"chan-a", false, true, none⟩ "chan-b" with
            in_group := false }, onlineAgentA, [], false) :=
  c6_superseded_disconnect_writes_nothing ⟨"chan-a", false, true, none⟩
    onlineAgentA 9 "chan-b" (by decide)

/-- C5 witness: the flap theorem at the concrete live agent onlineAgentA,
disconnecting at 0, reconnecting with a new IP, grace task firing at 5; all
three hypotheses discharged on the concrete agent. -/
theorem c5_reconnect_witness :
    (disconnectRun onlineAgentA 0).2.2 = true ∧
    graceCheckRun
        (markConnectedRun
          (updateAgentIpRun (disconnectRun onlineAgentA 0).1
            (some "10.0.0.9")).1).1 5
      = ((markConnectedRun
            (updateAgentIpRun (disconnectRun onlineAgentA 0).1
              (some "10.0.0.9")).1).1, []) ∧
    ∀ e ∈ (flapRun onlineAgentA 0 5 (some "10.0.0.9")).2,
      e.is_online = true :=
  c5_reconnect_within_grace_is_silent onlineAgentA 0 5 (some "10.0.0.9")
    (by decide) (by decide) (by decide)

/-- The agent-provided service description carried by agent.ready
(events/typing.py AgentServiceDataModel). -/
structure AgentServiceDataModel where
  id : String
  name : String
  description : String
  version : String
  schedule : String
deriving DecidableEq, Repr

/-- The defaults dict of Service.objects.update_or_create in
sync_agent_services_and_set_online (events/db.py lines 54-63): overwrite the
four descriptive fields of an existing row, leaving the dynamic state. -/
def applyData (s : Service) (d : AgentServiceDataModel) : Service :=
  { s with
    name := d.name
    description := d.description
    version := d.version
    schedule := d.schedule }

/-- A Service row freshly created by update_or_create: descriptive fields from
the payload, dynamic state at the model defaults (last_status UNKNOWN, empty
message, last_seen NULL; models.py lines 100-107). -/
def newService (d : AgentServiceDataModel) : Service :=
  { agent_service_id := d.id
    name := d.name
    description := d.description
    version := d.version
    schedule := d.schedule
    last_status := .unknown
    last_message := ""
    last_seen := none }

/-- One step of update_or_create applied to a row already in the table. -/
def applyIfMatch (d : AgentServiceDataModel) (s : Service) : Service :=
  if s.agent_service_id == d.id then applyData s d else s

/-- Service.objects.update_or_create(agent=..., agent_service_id=d.id,
defaults=...): update the matching row when one exists, else insert a new
row at the end. -/
def upsertService (svcs : List Service) (d : AgentServiceDataModel) :
    List Service :=
  if svcs.any (fun s => s.agent_service_id == d.id) then
    svcs.map (applyIfMatch d)
  else svcs ++ [newService d]

/-- sync_agent_services_and_set_online (events/db.py lines 42-68): upsert
each incoming service in order, delete the rows whose agent_service_id is not
among the incoming ids, then mark the agent connected. -/
def sync_agent_services_and_set_online (a : Agent) (svcs : List Service)
    (incoming : List AgentServiceDataModel) : List Service × Agent :=
  let upserted := incoming.foldl upsertService svcs
  let kept := upserted.filter
    (fun s => incoming.any (fun d => d.id == s.agent_service_id))
  (kept, mark_connected a)

/-- applyIfMatch never changes the row key. -/
theorem applyIfMatch_id (d : AgentServiceDataModel) (s : Service) :
    (applyIfMatch d s).agent_service_id = s.agent_service_id := by
  unfold applyIfMatch
  split <;> rfl

/-- The row keys present after one upsert: the old keys plus the incoming id. -/
theorem mem_id_upsertService (svcs : List Service) (d : AgentServiceDataModel)
    (x : String) :
    (∃ s ∈ upsertService svcs d, s.agent_service_id = x) ↔
      (∃ s ∈ svcs, s.agent_service_id = x) ∨ x = d.id := by
  unfold upsertService
  by_cases hany : svcs.any (fun s => s.agent_service_id == d.id) = true
  · rw [if_pos hany]
    constructor
    · rintro ⟨s, hs, hid⟩
      obtain ⟨t, ht, rfl⟩ := List.mem_map.mp hs
      exact Or.inl ⟨t, ht, by rw [← applyIfMatch_id d t, hid]⟩
    · rintro (⟨s, hs, hid⟩ | rfl)
      · exact ⟨applyIfMatch d s, List.mem_map.mpr ⟨s, hs, rfl⟩,
          (applyIfMatch_id d s).trans hid⟩
      · obtain ⟨s, hs, hsd⟩ := List.any_eq_true.mp hany
        exact ⟨applyIfMatch d s, List.mem_map.mpr ⟨s, hs, rfl⟩,
          (applyIfMatch_id d s).trans (by simpa using hsd)⟩
  · rw [if_neg hany]
    constructor
    · rintro ⟨s, hs, hid⟩
      rcases List.mem_append.mp hs with h | h
      · exact Or.inl ⟨s, h, hid⟩
      · right
        have : s = newService d := by simpa using h
        rw [← hid, this]
        rfl
    · rintro (⟨s, hs, hid⟩ | rfl)
      · exact ⟨s, List.mem_append.mpr (Or.inl hs), hid⟩
      · exact ⟨newService d, List.mem_append.mpr (Or.inr (by simp)), rfl⟩

/-- The row keys present after the whole upsert fold: the old keys plus all
incoming ids. -/
theorem mem_id_foldl_upsert (incoming : List AgentServiceDataModel)
    (svcs : List Service) (x : String) :
    (∃ s ∈ incoming.foldl upsertService svcs, s.agent_service_id = x) ↔
      (∃ s ∈ svcs, s.agent_service_id = x) ∨ ∃ d ∈ incoming, d.id = x := by
  induction incoming generalizing svcs with
  | nil => simp
  | cons d rest ih =>
    rw [List.foldl_cons, ih, mem_id_upsertService]
    constructor
    · rintro ((h | rfl) | h)
      · exact Or.inl h
      · exact Or.inr ⟨d, by simp⟩
      · obtain ⟨d', hd', hx⟩ := h
        exact Or.inr ⟨d', by simp [hd'], hx⟩
    · rintro (h | ⟨d', hd', hx⟩)
      · exact Or.inl (Or.inl h)
      · rcases List.mem_cons.mp hd' with rfl | hmem
        · exact Or.inl (Or.inr hx.symm)
        · exact Or.inr ⟨d', hmem, hx⟩

/-- The cumulative effect of one upsert pass on a single surviving row. -/
def foldApply (incoming : List AgentServiceDataModel) (s : Service) :
    Service :=
  incoming.foldl (fun r d => applyIfMatch d r) s

/-- Overwriting the descriptive fields twice is the same as once. -/
theorem applyData_applyData (s : Service) (d d' : AgentServiceDataModel) :
    applyData (applyData s d') d = applyData s d := rfl

/-- applyData only reads the descriptive payload: rows agreeing on the key
and the dynamic fields are mapped to the same row. -/
theorem applyData_congr (x y : Service) (d : AgentServiceDataModel)
    (hid : x.agent_service_id = y.agent_service_id)
    (hst : x.last_status = y.last_status)
    (hmsg : x.last_message = y.last_message)
    (hseen : x.last_seen = y.last_seen) :
    applyData x d = applyData y d := by
  simp [applyData, hid, hst, hmsg, hseen]

/-- foldApply is insensitive to the descriptive fields of a row whose key is
matched by some incoming entry. -/
theorem foldApply_congr (incoming : List AgentServiceDataModel)
    (x y : Service)
    (hid : x.agent_service_id = y.agent_service_id)
    (hst : x.last_status = y.last_status)
    (hmsg : x.last_message = y.last_message)
    (hseen : x.last_seen = y.last_seen)
    (hmatch : ∃ d ∈ incoming, d.id = x.agent_service_id) :
    foldApply incoming x = foldApply incoming y := by
  induction incoming with
  | nil =>
    obtain ⟨d, hd, _⟩ := hmatch
    exact absurd hd (by simp)
  | cons d rest ih =>
    by_cases hd : x.agent_service_id = d.id
    · have hx : applyIfMatch d x = applyData x d := by
        simp [applyIfMatch, hd]
      have hy : applyIfMatch d y = applyData y d := by
        simp [applyIfMatch, ← hid, hd]
      have hxy : applyData x d = applyData y d :=
        applyData_congr x y d hid hst hmsg hseen
      show foldApply rest (applyIfMatch d x) = foldApply rest (applyIfMatch d y)
      rw [hx, hy, hxy]
    · have hx : applyIfMatch d x = x := by
        simp [applyIfMatch, hd]
      have hy : applyIfMatch d y = y := by
        simp [applyIfMatch, ← hid, hd]
      have hm' : ∃ d' ∈ rest, d'.id = x.agent_service_id := by
        obtain ⟨d', hd', hdx⟩ := hmatch
        rcases List.mem_cons.mp hd' with rfl | hmem
        · exact absurd hdx.symm hd
        · exact ⟨d', hmem, hdx⟩
      show foldApply rest (applyIfMatch d x) = foldApply rest (applyIfMatch d y)
      rw [hx, hy]
      exact ih hm'

/-- A row whose key no incoming entry mentions passed through an upsert
untouched, so it was already in the table. -/
theorem mem_upsert_of_no_match (svcs : List Service)
    (d : AgentServiceDataModel) (r : Service)
    (h : r ∈ upsertService svcs d) (hne : d.id ≠ r.agent_service_id) :
    r ∈ svcs := by
  unfold upsertService at h
  by_cases hany : svcs.any (fun s => s.agent_service_id == d.id) = true
  · rw [if_pos hany] at h
    obtain ⟨s, hs, hmap⟩ := List.mem_map.mp h
    by_cases hsid : s.agent_service_id = d.id
    · exfalso
      apply hne
      rw [← hmap, applyIfMatch_id, hsid]
    · have : applyIfMatch d s = s := by simp [applyIfMatch, hsid]
      rw [← hmap, this]
      exact hs
  · rw [if_neg hany] at h
    rcases List.mem_append.mp h with hin | hin
    · exact hin
    · exfalso
      apply hne
      have : r = newService d := by simpa using hin
      rw [this]
      rfl

/-- A row whose key no incoming entry mentions passed through the whole
upsert fold untouched. -/
theorem mem_foldl_of_no_match (incoming : List AgentServiceDataModel)
    (svcs : List Service) (r : Service)
    (h : r ∈ incoming.foldl upsertService svcs)
    (hne : ∀ d ∈ incoming, d.id ≠ r.agent_service_id) :
    r ∈ svcs := by
  induction incoming generalizing svcs with
  | nil => exact h
  | cons d rest ih =>
    have hr : r ∈ upsertService svcs d :=
      ih (upsertService svcs d) h (fun d' hd' => hne d' (by simp [hd']))
    exact mem_upsert_of_no_match svcs d r hr (hne d (by simp))

/-- Every row left by the upsert fold is a fixed point of the pass: its
descriptive fields already equal those of its last matching incoming entry. -/
theorem foldApply_fixed (incoming : List AgentServiceDataModel)
    (svcs : List Service) (r : Service)
    (h : r ∈ incoming.foldl upsertService svcs) :
    foldApply incoming r = r := by
  induction incoming generalizing svcs with
  | nil => rfl
  | cons d rest ih =>
    have hfix : foldApply rest r = r := ih (upsertService svcs d) h
    show foldApply rest (applyIfMatch d r) = r
    by_cases heq : r.agent_service_id = d.id
    · have happ : applyIfMatch d r = applyData r d := by
        simp [applyIfMatch, heq]
      rw [happ]
      by_cases hm : ∃ d' ∈ rest, d'.id = r.agent_service_id
      · have hc := foldApply_congr rest (applyData r d) r rfl rfl rfl rfl hm
        rw [hc, hfix]
      · push_neg at hm
        have hback : r ∈ upsertService svcs d :=
          mem_foldl_of_no_match rest (upsertService svcs d) r h hm
        have hself : applyData r d = r := by
          unfold upsertService at hback
          by_cases hany : svcs.any (fun s => s.agent_service_id == d.id) = true
          · rw [if_pos hany] at hback
            obtain ⟨s, hs, hmap⟩ := List.mem_map.mp hback
            by_cases hsid : s.agent_service_id = d.id
            · have hr : applyData s d = r := by
                rw [← hmap]
                simp [applyIfMatch, hsid]
              rw [← hr]
              exact applyData_applyData s d d
            · exfalso
              apply hsid
              have hsr : s = r := by
                rw [← hmap]
                simp [applyIfMatch, hsid]
              rw [hsr]
              exact heq
          · rw [if_neg hany] at hback
            rcases List.mem_append.mp hback with hin | hin
            · exfalso
              apply hany
              exact List.any_eq_true.mpr ⟨r, hin, by simp [heq]⟩
            · have hr : r = newService d := by simpa using hin
              rw [hr]
              rfl
        rw [hself]
        exact hfix
    · have happ : applyIfMatch d r = r := by
        simp [applyIfMatch, heq]
      rw [happ]
      exact hfix

/-- When every incoming id already has a row, the upsert fold never inserts:
it is exactly a map of the per-row pass over the table. -/
theorem foldl_upsert_eq_map (incoming : List AgentServiceDataModel)
    (l : List Service)
    (hall : ∀ d ∈ incoming,
      l.any (fun s => s.agent_service_id == d.id) = true) :
    incoming.foldl upsertService l = l.map (foldApply incoming) := by
  induction incoming generalizing l with
  | nil =>
    rw [show foldApply ([] : List AgentServiceDataModel) = id from rfl,
      List.map_id]
    rfl
  | cons d rest ih =>
    have hu : upsertService l d = l.map (applyIfMatch d) := by
      unfold upsertService
      rw [if_pos (hall d (by simp))]
    have hall' : ∀ d' ∈ rest,
        (l.map (applyIfMatch d)).any
          (fun s => s.agent_service_id == d'.id) = true := by
      intro d' hd'
      obtain ⟨s, hs, hpred⟩ := List.any_eq_true.mp (hall d' (by simp [hd']))
      exact List.any_eq_true.mpr
        ⟨applyIfMatch d s, List.mem_map.mpr ⟨s, hs, rfl⟩,
          by simpa [applyIfMatch_id] using hpred⟩
    show rest.foldl upsertService (upsertService l d)
      = l.map (foldApply (d :: rest))
    rw [hu, ih (l.map (applyIfMatch d)) hall', List.map_map]
    rfl

/-- C7: SyncServices leaves the agent's stored services with
agent_service_id values exactly the set of incoming ids — every incoming id
has a row and every surviving row's id is an incoming id — and re-delivering
the same agent.ready payload is a no-op: the second sync returns the same
Service rows and the same agent. -/
theorem c7_sync_services_exact_and_idempotent (a : Agent)
    (svcs : List Service) (incoming : List AgentServiceDataModel) :
    (∀ x, (∃ s ∈ (sync_agent_services_and_set_online a svcs incoming).1,
        s.agent_service_id = x) ↔ ∃ d ∈ incoming, d.id = x) ∧
    sync_agent_services_and_set_online
        (sync_agent_services_and_set_online a svcs incoming).2
        (sync_agent_services_and_set_online a svcs incoming).1 incoming
      = sync_agent_services_and_set_online a svcs incoming := by
  simp only [sync_agent_services_and_set_online]
  have hset : ∀ x,
      (∃ s ∈ (incoming.foldl upsertService svcs).filter
          (fun s => incoming.any (fun d => d.id == s.agent_service_id)),
        s.agent_service_id = x) ↔ ∃ d ∈ incoming, d.id = x := by
    intro x
    constructor
    · rintro ⟨s, hs, hid⟩
      have hmf := List.mem_filter.mp hs
      obtain ⟨d, hd, hdx⟩ := List.any_eq_true.mp hmf.2
      refine ⟨d, hd, ?_⟩
      have hde : d.id = s.agent_service_id := by simpa using hdx
      rw [hde, hid]
    · rintro ⟨d, hd, hdx⟩
      obtain ⟨s, hs, hid⟩ :=
        (mem_id_foldl_upsert incoming svcs x).mpr (Or.inr ⟨d, hd, hdx⟩)
      refine ⟨s, List.mem_filter.mpr ⟨hs, ?_⟩, hid⟩
      exact List.any_eq_true.mpr ⟨d, hd, by simp [hid, hdx]⟩
  refine ⟨hset, ?_⟩
  have hall : ∀ d ∈ incoming,
      ((incoming.foldl upsertService svcs).filter
          (fun s => incoming.any (fun d => d.id == s.agent_service_id))).any
        (fun s => s.agent_service_id == d.id) = true := by
    intro d hd
    obtain ⟨s, hs, hid⟩ := (hset d.id).mpr ⟨d, hd, rfl⟩
    exact List.any_eq_true.mpr ⟨s, hs, by simp [hid]⟩
  rw [foldl_upsert_eq_map incoming _ hall]
  have hfixall : ∀ r ∈ (incoming.foldl upsertService svcs).filter
      (fun s => incoming.any (fun d => d.id == s.agent_service_id)),
      foldApply incoming r = r := by
    intro r hr
    exact foldApply_fixed incoming svcs r (List.mem_filter.mp hr).1
  rw [List.map_congr_left hfixall, List.map_id']
  rw [List.filter_eq_self.mpr
    (fun r hr => (List.mem_filter.mp hr).2)]
  rfl

/-- A JSON value: the medium of channel-layer payloads and of the serialized
events written to SSE subscribers. Numbers are timestamps, kept as Nat. -/
inductive JVal where
  | jnull
  | jbool (b : Bool)
  | jnum (n : Nat)
  | jstr (s : String)
  | jarr (xs : List JVal)
  | jobj (fs : List (String × JVal))

/-- ClientServiceDataModel (events/typing.py lines 31-34, extending
AgentServiceDataModel): the service payload embedded in client events. -/
structure ClientServiceDataModel where
  id : String
  name : String
  description : String
  version : String
  schedule : String
  last_message : String
  last_seen : Option Nat
  last_status : ServiceStatus
deriving DecidableEq, Repr

/-- ClientAgentDataModel (events/typing.py lines 37-44): the agent payload
embedded in client events. -/
structure ClientAgentDataModel where
  id : String
  name : String
  registration_status : AgentRegStatus
  services : List ClientServiceDataModel
  ip_address : Option String
  is_online : Bool
  last_seen : Option Nat
deriving DecidableEq, Repr

/-- The closed Server → Client discriminated union ClientEvent
(events/typing.py lines 126-157), keyed by the "type" string. -/
inductive ClientEvent where
  | initialStatus (agents : List ClientAgentDataModel)
  | statusUpdate (agent : ClientAgentDataModel)
  | serviceAdded (agent_id : String) (service : ClientServiceDataModel)
  | serviceRemoved (agent_id : String) (service_id : String)
  | serviceStatusUpdate (agent_id : String) (service_id : String)
      (status : ServiceStatus) (message : String) (timestamp : Nat)
deriving DecidableEq, Repr

/-- The wire string of a ServiceStatus enum value (typing.py lines 8-17). -/
def serviceStatusStr : ServiceStatus → String
  | .ok => "OK"
  | .update => "UPDATE"
  | .warning => "WARNING"
  | .failure => "FAILURE"
  | .error => "ERROR"
  | .unknown => "UNKNOWN"

/-- Pydantic enum validation for ServiceStatus: only the six wire strings. -/
def parseServiceStatus (s : String) : Option ServiceStatus :=
  if s = "OK" then some .ok
  else if s = "UPDATE" then some .update
  else if s = "WARNING" then some .warning
  else if s = "FAILURE" then some .failure
  else if s = "ERROR" then some .error
  else if s = "UNKNOWN" then some .unknown
  else none

/-- The wire string of a registration status (models.py lines 18-21). -/
def regStatusStr : AgentRegStatus → String
  | .pending => "pending"
  | .registered => "registered"
  | .unregistered => "unregistered"

/-- Pydantic Literal validation for registration_status (typing.py line 40). -/
def parseRegStatus (s : String) : Option AgentRegStatus :=
  if s = "pending" then some .pending
  else if s = "registered" then some .registered
  else if s = "unregistered" then some .unregistered
  else none

/-- Serialization of a nullable string (model_dump of str | None). -/
def jOptStr : Option String → JVal
  | some s => .jstr s
  | none => .jnull

/-- Serialization of a nullable timestamp (model_dump of datetime | None). -/
def jOptNum : Option Nat → JVal
  | some n => .jnum n
  | none => .jnull

/-- model_dump of a ClientServiceDataModel. -/
def serializeService (s : ClientServiceDataModel) : JVal :=
  .jobj [("id", .jstr s.id), ("name", .jstr s.name),
    ("description", .jstr s.description), ("version", .jstr s.version),
    ("schedule", .jstr s.schedule), ("last_message", .jstr s.last_message),
    ("last_seen", jOptNum s.last_seen),
    ("last_status", .jstr (serviceStatusStr s.last_status))]

/-- model_dump of a ClientAgentDataModel. -/
def serializeAgent (a : ClientAgentDataModel) : JVal :=
  .jobj [("id", .jstr a.id), ("name", .jstr a.name),
    ("registration_status", .jstr (regStatusStr a.registration_status)),
    ("services", .jarr (a.services.map serializeService)),
    ("ip_address", jOptStr a.ip_address),
    ("is_online", .jbool a.is_online),
    ("last_seen", jOptNum a.last_seen)]

/-- model_dump of a ClientEvent: the "type" discriminator plus "data". -/
def serializeClientEvent : ClientEvent → JVal
  | .initialStatus agents =>
    .jobj [("type", .jstr "client.initial_status"),
      ("data", .jobj [("agents", .jarr (agents.map serializeAgent))])]
  | .statusUpdate agent =>
    .jobj [("type", .jstr "client.status_update"),
      ("data", .jobj [("agent", serializeAgent agent)])]
  | .serviceAdded aid svc =>
    .jobj [("type", .jstr "client.service_added"),
      ("data", .jobj [("agent_id", .jstr aid),
        ("service", serializeService svc)])]
  | .serviceRemoved aid sid =>
    .jobj [("type", .jstr "client.service_removed"),
      ("data", .jobj [("agent_id", .jstr aid), ("service_id", .jstr sid)])]
  | .serviceStatusUpdate aid sid st msg ts =>
    .jobj [("type", .jstr "client.service_status_update"),
      ("data", .jobj [("agent_id", .jstr aid), ("service_id", .jstr sid),
        ("status", .jstr (serviceStatusStr st)), ("message", .jstr msg),
        ("timestamp", .jnum ts)])]

/-- JSON object field access. -/
def jGet (j : JVal) (k : String) : Option JVal :=
  match j with
  | .jobj fs => (fs.find? (fun kv => kv.1 == k)).map (·.2)
  | _ => none

/-- A required string field. -/
def jGetStr (j : JVal) (k : String) : Option String :=
  match jGet j k with
  | some (.jstr s) => some s
  | _ => none

/-- A required boolean field. -/
def jGetBool (j : JVal) (k : String) : Option Bool :=
  match jGet j k with
  | some (.jbool b) => some b
  | _ => none

/-- A required numeric (timestamp) field. -/
def jGetNum (j : JVal) (k : String) : Option Nat :=
  match jGet j k with
  | some (.jnum n) => some n
  | _ => none

/-- A nullable string field; the key must still be present. -/
def jGetOptStr (j : JVal) (k : String) : Option (Option String) :=
  match jGet j k with
  | some (.jstr s) => some (some s)
  | some .jnull => some none
  | _ => none

/-- A nullable numeric field; the key must still be present. -/
def jGetOptNum (j : JVal) (k : String) : Option (Option Nat) :=
  match jGet j k with
  | some (.jnum n) => some (some n)
  | some .jnull => some none
  | _ => none

/-- A required array field, returned raw. -/
def jGetArr (j : JVal) (k : String) : Option (List JVal) :=
  match jGet j k with
  | some (.jarr xs) => some xs
  | _ => none

/-- Pydantic validation of one ClientServiceDataModel: every declared field
present with the right type, the enum restricted to its six values. -/
def parseService (j : JVal) : Option ClientServiceDataModel :=
  match jGetStr j "id", jGetStr j "name", jGetStr j "description",
      jGetStr j "version", jGetStr j "schedule", jGetStr j "last_message",
      jGetOptNum j "last_seen",
      (jGetStr j "last_status").bind parseServiceStatus with
  | some i, some n, some de, some ve, some sc, some lm, some ls, some st =>
      some ⟨i, n, de, ve, sc, lm, ls, st⟩
  | _, _, _, _, _, _, _, _ => none

/-- Validation of a list of service payloads; any bad element fails the
whole event, as pydantic does. -/
def parseServiceList : List JVal → Option (List ClientServiceDataModel)
  | [] => some []
  | j :: rest =>
    match parseService j, parseServiceList rest with
    | some s, some ss => some (s :: ss)
    | _, _ => none

/-- Pydantic validation of one ClientAgentDataModel. -/
def parseAgent (j : JVal) : Option ClientAgentDataModel :=
  match jGetStr j "id", jGetStr j "name",
      (jGetStr j "registration_status").bind parseRegStatus,
      jGetArr j "services", jGetOptStr j "ip_address",
      jGetBool j "is_online", jGetOptNum j "last_seen" with
  | some i, some n, some rs, some xs, some ip, some onl, some ls =>
      (parseServiceList xs).map (fun svcs => ⟨i, n, rs, svcs, ip, onl, ls⟩)
  | _, _, _, _, _, _, _ => none

/-- Validation of a list of agent payloads. -/
def parseAgentList : List JVal → Option (List ClientAgentDataModel)
  | [] => some []
  | j :: rest =>
    match parseAgent j, parseAgentList rest with
    | some a, some as' => some (a :: as')
    | _, _ => none

/-- client_event_type_adapter.validate (events/validation.py lines 13-15):
the discriminated-union validation of a Client event — dispatch on the
"type" string, then validate the payload strictly; unknown discriminators
and schema violations fail. -/
def parseClientEvent (j : JVal) : Option ClientEvent :=
  match jGetStr j "type", jGet j "data" with
  | some t, some dj =>
    if t = "client.initial_status" then
      match jGetArr dj "agents" with
      | some xs => (parseAgentList xs).map ClientEvent.initialStatus
      | none => none
    else if t = "client.status_update" then
      match jGet dj "agent" with
      | some aj => (parseAgent aj).map ClientEvent.statusUpdate
      | none => none
    else if t = "client.service_added" then
      match jGetStr dj "agent_id", jGet dj "service" with
      | some aid, some sj =>
          (parseService sj).map (ClientEvent.serviceAdded aid)
      | _, _ => none
    else if t = "client.service_removed" then
      match jGetStr dj "agent_id", jGetStr dj "service_id" with
      | some aid, some sid => some (ClientEvent.serviceRemoved aid sid)
      | _, _ => none
    else if t = "client.service_status_update" then
      match jGetStr dj "agent_id", jGetStr dj "service_id",
          (jGetStr dj "status").bind parseServiceStatus,
          jGetStr dj "message", jGetNum dj "timestamp" with
      | some aid, some sid, some st, some msg, some ts =>
          some (ClientEvent.serviceStatusUpdate aid sid st msg ts)
      | _, _, _, _, _ => none
    else none
  | _, _ => none

/-- ClientConsumer._send_server_event (client_consumer.py lines 144-160):
validate the incoming payload against the Client event schema; on success
write the serialized validated event as an SSE record; a ValidationError is
logged and the message skipped — the function returns instead of raising, so
the subscriber stays connected either way. -/
def sendServerEvent (raw : JVal) : Option JVal :=
  match parseClientEvent raw with
  | some e => some (serializeClientEvent e)
  | none => none

/-- The enum wire strings validate back to the same enum value. -/
theorem parseServiceStatus_roundtrip (st : ServiceStatus) :
    parseServiceStatus (serviceStatusStr st) = some st := by
  cases st <;> rfl

/-- The registration-status wire strings validate back to the same value. -/
theorem parseRegStatus_roundtrip (rs : AgentRegStatus) :
    parseRegStatus (regStatusStr rs) = some rs := by
  cases rs <;> rfl

/-- A serialized service payload validates back to the same model. -/
theorem parseService_roundtrip (s : ClientServiceDataModel) :
    parseService (serializeService s) = some s := by
  obtain ⟨i, n, de, ve, sc, lm, ls, st⟩ := s
  cases ls <;> cases st <;> rfl

/-- A list of serialized service payloads validates back unchanged. -/
theorem parseServiceList_roundtrip (l : List ClientServiceDataModel) :
    parseServiceList (l.map serializeService) = some l := by
  induction l with
  | nil => rfl
  | cons s rest ih =>
    show parseServiceList (serializeService s :: rest.map serializeService)
      = some (s :: rest)
    rw [parseServiceList, parseService_roundtrip, ih]

/-- A serialized agent payload validates back to the same model. -/
theorem parseAgent_roundtrip (a : ClientAgentDataModel) :
    parseAgent (serializeAgent a) = some a := by
  obtain ⟨i, n, rs, svcs, ip, onl, ls⟩ := a
  have h := parseServiceList_roundtrip svcs
  cases rs <;> cases ip <;> cases ls <;>
    · show (parseServiceList (svcs.map serializeService)).map _ = _
      rw [h]
      rfl

/-- A list of serialized agent payloads validates back unchanged. -/
theorem parseAgentList_roundtrip (l : List ClientAgentDataModel) :
    parseAgentList (l.map serializeAgent) = some l := by
  induction l with
  | nil => rfl
  | cons a rest ih =>
    show parseAgentList (serializeAgent a :: rest.map serializeAgent)
      = some (a :: rest)
    rw [parseAgentList, parseAgent_roundtrip, ih]

/-- Every serialized ClientEvent validates back to the same event: the
discriminated-union schema accepts exactly what the code emits. -/
theorem parseClientEvent_roundtrip (e : ClientEvent) :
    parseClientEvent (serializeClientEvent e) = some e := by
  cases e with
  | initialStatus agents =>
    show (parseAgentList (agents.map serializeAgent)).map _ = _
    rw [parseAgentList_roundtrip]
    rfl
  | statusUpdate agent =>
    show (parseAgent (serializeAgent agent)).map _ = _
    rw [parseAgent_roundtrip]
    rfl
  | serviceAdded aid svc =>
    show (parseService (serializeService svc)).map _ = _
    rw [parseService_roundtrip]
    rfl
  | serviceRemoved aid sid => rfl
  | serviceStatusUpdate aid sid st msg ts => cases st <;> rfl

/-- C9: the client stream writes a record only for payloads that validate
against the Client event schema — and what it writes is the serialization of
the validated event, itself schema-valid — while a payload failing validation
is skipped (no record) with the function returning normally, so the
subscriber stays connected. -/
theorem c9_sent_events_validate (raw : JVal) :
    (sendServerEvent raw = none ↔ parseClientEvent raw = none) ∧
    ∀ body, sendServerEvent raw = some body →
      ∃ e, parseClientEvent raw = some e ∧ body = serializeClientEvent e ∧
        parseClientEvent (serializeClientEvent e) = some e := by
  constructor
  · unfold sendServerEvent
    cases h : parseClientEvent raw <;> simp [h]
  · intro body hb
    unfold sendServerEvent at hb
    cases h : parseClientEvent raw with
    | none => rw [h] at hb; exact absurd hb (by simp)
    | some e =>
      rw [h] at hb
      refine ⟨e, rfl, ?_, parseClientEvent_roundtrip e⟩
      simpa using hb.symm

/-- C9 witness: the theorem applied at the concrete serialized
client.service_removed event, with the some-body hypothesis discharged. -/
theorem c9_sent_events_witness :
    ∃ e, parseClientEvent
        (serializeClientEvent (.serviceRemoved "1" "nginx")) = some e ∧
      serializeClientEvent (ClientEvent.serviceRemoved "1" "nginx")
        = serializeClientEvent e ∧
      parseClientEvent (serializeClientEvent e) = some e :=
  (c9_sent_events_validate
      (serializeClientEvent (.serviceRemoved "1" "nginx"))).2
    (serializeClientEvent (.serviceRemoved "1" "nginx")) rfl

/-- The service part of map_agent_to_client_model (events/mappers.py lines
12-24): a Service row rendered as a ClientServiceDataModel. -/
def mapServiceToClientModel (svc : Service) : ClientServiceDataModel :=
  { id := svc.agent_service_id
    name := svc.name
    description := svc.description
    version := svc.version
    schedule := svc.schedule
    last_message := svc.last_message
    last_seen := svc.last_seen
    last_status := svc.last_status }

/-- map_agent_to_client_model (events/mappers.py lines 9-34): an Agent row
plus its service rows rendered as a ClientAgentDataModel. -/
def map_agent_to_client_model (a : Agent) (svcs : List Service) :
    ClientAgentDataModel :=
  { id := toString a.pk
    name := a.name
    registration_status := a.registration_status
    services := svcs.map mapServiceToClientModel
    ip_address := a.ip_address
    is_online := a.is_online
    last_seen := a.last_seen }

/-- get_user_agents (events/db.py lines 113-122): the user's agents filtered
to registration_status = REGISTERED, each mapped with its services
(servicesOf gives the service rows of an agent pk). -/
def get_user_agents (agents : List Agent) (servicesOf : Nat → List Service)
    (user : Nat) : List ClientAgentDataModel :=
  (agents.filter (fun a =>
      decide (a.owner = user ∧
        a.registration_status = AgentRegStatus.registered))).map
    (fun a => map_agent_to_client_model a (servicesOf a.pk))

/-- The initial snapshot ClientConsumer.handle sends on subscribe
(client_consumer.py lines 79-83): a client.initial_status event wrapping
get_user_agents. -/
def initialStatusSnapshot (agents : List Agent)
    (servicesOf : Nat → List Service) (user : Nat) : ClientEvent :=
  .initialStatus (get_user_agents agents servicesOf user)

/-- One entry of the get_all_agent_statuses response (views.py lines
367-392); its service dicts carry the same fields as
ClientServiceDataModel. -/
structure AgentStatusEntry where
  agent_id : String
  agent_name : String
  is_online : Bool
  ip_address : Option String
  registration_status : AgentRegStatus
  services : List ClientServiceDataModel
deriving DecidableEq, Repr

/-- get_all_agent_statuses (views.py lines 357-393): all of the user's
REGISTERED agents with their current status and services. -/
def get_all_agent_statuses (agents : List Agent)
    (servicesOf : Nat → List Service) (user : Nat) : List AgentStatusEntry :=
  (agents.filter (fun a =>
      decide (a.owner = user ∧
        a.registration_status = AgentRegStatus.registered))).map
    (fun a =>
      { agent_id := toString a.pk
        agent_name := a.name
        is_online := a.is_online
        ip_address := a.ip_address
        registration_status := a.registration_status
        services := (servicesOf a.pk).map mapServiceToClientModel })

/-- C10: the initial snapshot payload is exactly get_user_agents, and both
user-agent listings contain only images of agents owned by the user with
registration_status REGISTERED — every listed entry carries status
"registered", so Pending and Unregistered agents of the same user never
appear. -/
theorem c10_snapshot_only_registered_agents (agents : List Agent)
    (servicesOf : Nat → List Service) (user : Nat) :
    initialStatusSnapshot agents servicesOf user
      = .initialStatus (get_user_agents agents servicesOf user) ∧
    (∀ m ∈ get_user_agents agents servicesOf user,
      ∃ a ∈ agents, a.owner = user ∧
        a.registration_status = AgentRegStatus.registered ∧
        m = map_agent_to_client_model a (servicesOf a.pk) ∧
        m.registration_status = AgentRegStatus.registered) ∧
    (∀ m ∈ get_all_agent_statuses agents servicesOf user,
      ∃ a ∈ agents, a.owner = user ∧
        a.registration_status = AgentRegStatus.registered ∧
        m.registration_status = AgentRegStatus.registered) := by
  refine ⟨rfl, ?_, ?_⟩
  · intro m hm
    obtain ⟨a, ha, rfl⟩ := List.mem_map.mp hm
    have hf := List.mem_filter.mp ha
    have hprops := of_decide_eq_true hf.2
    exact ⟨a, hf.1, hprops.1, hprops.2, rfl, by
      show a.registration_status = AgentRegStatus.registered
      exact hprops.2⟩
  · intro m hm
    obtain ⟨a, ha, rfl⟩ := List.mem_map.mp hm
    have hf := List.mem_filter.mp ha
    have hprops := of_decide_eq_true hf.2
    exact ⟨a, hf.1, hprops.1, hprops.2, hprops.2⟩

/-- A two-service agent.ready payload. -/
def incomingPair : List AgentServiceDataModel :=
  [⟨"nginx", "nginx", "web server", "1.25", "daily"⟩,
   ⟨"redis", "redis", "kv store", "7.2", ""⟩]

/-- C7 witness: the sync theorem instantiated at a concrete agent, an
existing one-row table and a concrete two-service payload. -/
theorem c7_sync_witness :
    (∀ x, (∃ s ∈ (sync_agent_services_and_set_online onlineAgentA
          [serviceNginx] incomingPair).1, s.agent_service_id = x) ↔
        ∃ d ∈ incomingPair, d.id = x) ∧
    sync_agent_services_and_set_online
        (sync_agent_services_and_set_online onlineAgentA [serviceNginx]
          incomingPair).2
        (sync_agent_services_and_set_online onlineAgentA [serviceNginx]
          incomingPair).1 incomingPair
      = sync_agent_services_and_set_online onlineAgentA [serviceNginx]
          incomingPair :=
  c7_sync_services_exact_and_idempotent onlineAgentA [serviceNginx]
    incomingPair

/-- A Pending agent owned by the same user 7. -/
def pendingAgentB : Agent :=
  { pk := 2
    key := "1f1e1d1c-1b1a-1918-1716-151413121110"
    name := "beta"
    owner := 7
    ip_address := none
    registration_status := .pending
    is_online := false
    last_seen := some 1
    grace_period := 0 }

/-- C10 witness: the snapshot theorem instantiated on a table holding one
registered and one pending agent of user 7. -/
theorem c10_snapshot_witness :
    initialStatusSnapshot [onlineAgentA, pendingAgentB] (fun _ => []) 7
      = .initialStatus
          (get_user_agents [onlineAgentA, pendingAgentB] (fun _ => []) 7) ∧
    (∀ m ∈ get_user_agents [onlineAgentA, pendingAgentB] (fun _ => []) 7,
      ∃ a ∈ [onlineAgentA, pendingAgentB], a.owner = 7 ∧
        a.registration_status = AgentRegStatus.registered ∧
        m = map_agent_to_client_model a ((fun _ => ([] : List Service)) a.pk) ∧
        m.registration_status = AgentRegStatus.registered) ∧
    (∀ m ∈ get_all_agent_statuses [onlineAgentA, pendingAgentB]
        (fun _ => []) 7,
      ∃ a ∈ [onlineAgentA, pendingAgentB], a.owner = 7 ∧
        a.registration_status = AgentRegStatus.registered ∧
        m.registration_status = AgentRegStatus.registered) :=
  c10_snapshot_only_registered_agents [onlineAgentA, pendingAgentB]
    (fun _ => []) 7
